import Mathlib

/-!
Shallow embedding of `src/prefect/_internal/concurrency/workers.py`:
the deferred-call abstraction (`Call`), the worker thread (`Worker`) and
the process-wide worker handle (`get_global_worker`).

Modelling conventions:
* A `concurrent.futures.Future` is embedded as the state machine
  `FutureState`, with the exact transition rules of CPython's
  `Future.set_running_or_notify_cancel`, `Future.set_result`,
  `Future.set_exception`, `Future.cancel` and `Future.result`.
  An operation that would raise `InvalidStateError` returns `none`.
* A `contextvars.Context` is an abstract identifier `Ctx := Nat`;
  `Context.run(fn, *args)` is embedded as applying the function to the
  context it runs under, so a wrapped function is a value of type
  `Ctx → A → FnResult V E`: what it does may depend on the context it
  observes.  `args` of type `A` stands for both the positional and the
  keyword arguments (captured together at creation time).
* A coroutine returned by an async function is `Ctx → AwaitOutcome V E`:
  awaiting it under a context either yields a value or raises.
* The event loop and the worker thread are not modelled as schedulers;
  instead `Call.run` is given the ambient context `amb` of the executing
  thread and a flag `loopAvailable` telling whether `get_running_loop`
  finds a loop, and the asynchronous continuation `_run_async` is run to
  completion so that the final state of the future is visible.
-/

namespace PrefectWorkers

/-- Ambient context-local state (`contextvars.Context`), abstracted to an
identifier: two distinct identifiers are two distinct context snapshots. -/
abbrev Ctx := Nat

/-- State machine of a `concurrent.futures.Future` as used by `Call`:
pending, cancelled (terminal), running, fulfilled with a value (terminal)
or failed with an exception (terminal). -/
inductive FutureState (V E : Type) where
  | pending : FutureState V E
  | cancelled : FutureState V E
  | running : FutureState V E
  | fulfilled : V → FutureState V E
  | failed : E → FutureState V E
deriving DecidableEq, Repr

namespace FutureState

variable {V E : Type}

/-- CPython `Future.cancel`: a pending future becomes cancelled and `true`
is returned; a running or finished future is unchanged and `false` is
returned. -/
def cancel : FutureState V E → Bool × FutureState V E
  | .pending => (true, .cancelled)
  | s => (false, s)

/-- CPython `Future.set_running_or_notify_cancel`: from pending the future
becomes running and `true` is returned; from cancelled it stays cancelled
and `false` is returned; from any other state `InvalidStateError` is
raised (embedded as `none`). -/
def set_running_or_notify_cancel :
    FutureState V E → Option (Bool × FutureState V E)
  | .pending => some (true, .running)
  | .cancelled => some (false, .cancelled)
  | _ => none

/-- CPython `Future.set_result`: allowed from pending or running, otherwise
`InvalidStateError` (embedded as `none`). -/
def set_result (v : V) : FutureState V E → Option (FutureState V E)
  | .pending => some (.fulfilled v)
  | .running => some (.fulfilled v)
  | _ => none

/-- CPython `Future.set_exception`: allowed from pending or running,
otherwise `InvalidStateError` (embedded as `none`). -/
def set_exception (e : E) : FutureState V E → Option (FutureState V E)
  | .pending => some (.failed e)
  | .running => some (.failed e)
  | _ => none

end FutureState

/-- What a waiter observes from `Future.result()`: the value, the captured
exception re-raised, `CancelledError`, or blocking (future not done). -/
inductive ResultRead (V E : Type) where
  | value : V → ResultRead V E
  | raises : E → ResultRead V E
  | cancelledError : ResultRead V E
  | blocks : ResultRead V E
deriving DecidableEq, Repr

/-- CPython `Future.result()` (no timeout) as a pure read of the state. -/
def FutureState.result {V E : Type} : FutureState V E → ResultRead V E
  | .fulfilled v => .value v
  | .failed e => .raises e
  | .cancelled => .cancelledError
  | _ => .blocks

/-- Outcome of awaiting a coroutine under a context. -/
inductive AwaitOutcome (V E : Type) where
  | value : V → AwaitOutcome V E
  | raises : E → AwaitOutcome V E

/-- Result of invoking the wrapped function under a context: a plain
(non-awaitable) value, a raised exception, or an awaitable. -/
inductive FnResult (V E : Type) where
  | value : V → FnResult V E
  | raises : E → FnResult V E
  | awaitable : (Ctx → AwaitOutcome V E) → FnResult V E

/-- The `Call` dataclass: a future, the wrapped function, its arguments
(`args` stands for the source's `args` and `kwargs` together) and the
context snapshot taken at creation time. -/
structure Call (A V E : Type) where
  future : FutureState V E
  fn : Ctx → A → FnResult V E
  args : A
  context : Ctx

namespace Call

variable {A V E : Type}

/-- `Call.new`: fresh pending future, the callable and its arguments, and
`contextvars.copy_context()` — a snapshot of the ambient context of the
creating (submitting) thread, taken now. -/
def new (fn : Ctx → A → FnResult V E) (args : A) (ambientAtCreation : Ctx) :
    Call A V E :=
  { future := FutureState.pending
    fn := fn
    args := args
    context := ambientAtCreation }

/-- Cancelling the call's future before execution (`call.future.cancel()`),
keeping the resulting future state. -/
def cancelFuture (c : Call A V E) : Call A V E :=
  { c with future := (c.future.cancel).2 }

/-- Result of `Call._run_sync`: the future state afterwards, the coroutine
returned for async execution (if the function's result was awaitable) and
the number of terminal sets performed; `none` embeds `InvalidStateError`.
The source's try/except/else: a raised exception is captured with
`set_exception`; an awaitable result is returned from the `try` block
(skipping the `else` clause); a plain value reaches the `else` clause and
is stored with `set_result`. -/
def run_sync (c : Call A V E) :
    Option (FutureState V E × Option (Ctx → AwaitOutcome V E) × Nat) :=
  match c.fn c.context c.args with
  | .raises e => (c.future.set_exception e).map (fun f => (f, none, 1))
  | .awaitable k => some (c.future, some k, 0)
  | .value v => (c.future.set_result v).map (fun f => (f, none, 1))

/-- `Call._run_async`: await the coroutine (under the call's context, since
the task is created inside `self.context.run`), then `set_exception` on a
raise and `set_result` on a value.  Returns the future state afterwards
and the number of terminal sets; `none` embeds `InvalidStateError`. -/
def run_async (f : FutureState V E) (o : AwaitOutcome V E) :
    Option (FutureState V E × Nat) :=
  match o with
  | .raises e => (f.set_exception e).map (fun f2 => (f2, 1))
  | .value v => (f.set_result v).map (fun f2 => (f2, 1))

/-- Everything observable from one execution of `Call.run` (with the
asynchronous continuation, when there is one, run to completion):
the final future state, whether the wrapped function was invoked,
whether `run` returned a suspendable handle (a task), and how many
terminal `set_result`/`set_exception` calls happened in total. -/
structure RunOutcome (V E : Type) where
  future : FutureState V E
  fn_invoked : Bool
  returned_handle : Bool
  terminal_sets : Nat
deriving DecidableEq, Repr

/-- `Call.run`, executed on a thread whose ambient context is `amb` and
where `get_running_loop` finds a loop iff `loopAvailable`.  Steps of the
source: `set_running_or_notify_cancel` (return immediately on a cancelled
future); `_run_sync` under the call's own context snapshot (never under
`amb`); if a coroutine came back, run `_run_async` on it — as a task on
the running loop (returning the task, a suspendable handle) when a loop
is available, else synchronously via `asyncio.run` (returning `None`).
`none` embeds `InvalidStateError`. -/
def run (c : Call A V E) (amb : Ctx) (loopAvailable : Bool) :
    Option (RunOutcome V E) :=
  match c.future.set_running_or_notify_cancel with
  | none => none
  | some (false, f) =>
      some { future := f, fn_invoked := false, returned_handle := false
             terminal_sets := 0 }
  | some (true, f) =>
      match Call.run_sync { c with future := f } with
      | none => none
      | some (f2, none, n) =>
          some { future := f2, fn_invoked := true, returned_handle := false
                 terminal_sets := n }
      | some (f2, some k, n) =>
          match Call.run_async f2 (k c.context) with
          | none => none
          | some (f3, m) =>
              some { future := f3, fn_invoked := true
                     returned_handle := loopAvailable
                     terminal_sets := n + m }

/-- `Call.__call__`: execute `run`; if it returned a suspendable handle,
the caller gets an awaitable that awaits it and then reads
`future.result()`; otherwise `future.result()` is read directly (blocking
until done).  Embedded as the eventual read of the future paired with
whether an awaitable was handed back; `none` embeds `InvalidStateError`. -/
def callSelf (c : Call A V E) (amb : Ctx) (loopAvailable : Bool) :
    Option (ResultRead V E × Bool) :=
  match c.run amb loopAvailable with
  | none => none
  | some out => some (out.future.result, out.returned_handle)

end Call

/-- The `Worker` class.  `id` models Python object identity (two workers
constructed by different calls have different `id`s); `started` models
`_shutdown_event is not None` (the thread was started and
`_run_until_shutdown` published the loop and the event); `shutdown_set`
models `_shutdown_event.is_set()`; `thread_alive` models
`thread.is_alive()`. -/
structure Worker where
  id : Nat
  started : Bool
  shutdown_set : Bool
  run_once : Bool
  daemon : Bool
  submitted_count : Nat
  thread_alive : Bool
deriving DecidableEq, Repr

namespace Worker

/-- `Worker.__init__(name, daemon, run_once)`: stores configuration, does
not start the thread; no loop, no shutdown event, zero submissions. -/
def init (id : Nat) (daemon : Bool) (run_once : Bool) : Worker :=
  { id := id
    started := false
    shutdown_set := false
    run_once := run_once
    daemon := daemon
    submitted_count := 0
    thread_alive := false  -- thread not started, hence not alive
    }

/-- `Worker.start` on the successful path: the thread is spawned (alive),
`_run_until_shutdown` creates a fresh, unset shutdown event and resolves
the readiness future, and `start` returns. -/
def start (w : Worker) : Worker :=
  { w with started := true, shutdown_set := false, thread_alive := true }

/-- The two `RuntimeError`s `Worker.submit` can raise. -/
inductive SubmitError where
  | run_once_exhausted
  | worker_shutdown
deriving DecidableEq, Repr

/-- Everything observable from one `Worker.submit(call)`: the error raised
(if any), the worker state afterwards, whether `call.run` was scheduled
onto the loop via `call_soon_threadsafe`, and whether a shutdown
continuation was attached to the call's future. -/
structure SubmitOutcome where
  error : Option SubmitError
  worker : Worker
  scheduled_run : Bool
  added_shutdown_callback : Bool
deriving DecidableEq, Repr

/-- `Worker.submit`: raise if `run_once` and a call was already submitted;
lazily `start` if the shutdown event does not exist yet; raise if the
shutdown event is set; otherwise schedule `call.run` onto the loop,
increment the submitted count, and on a `run_once` worker attach a done
callback that shuts the worker down. -/
def submit (w : Worker) : SubmitOutcome :=
  if w.submitted_count > 0 ∧ w.run_once then
    { error := some SubmitError.run_once_exhausted, worker := w
      scheduled_run := false, added_shutdown_callback := false }
  else
    let w1 := if w.started then w else w.start
    if w1.shutdown_set then
      { error := some SubmitError.worker_shutdown, worker := w1
        scheduled_run := false, added_shutdown_callback := false }
    else
      { error := none
        worker := { w1 with submitted_count := w1.submitted_count + 1 }
        scheduled_run := true
        added_shutdown_callback := w1.run_once }

/-- `Worker.shutdown`: if the shutdown event was never created (worker
never started), return without doing anything; otherwise set the event. -/
def shutdown (w : Worker) : Worker :=
  if w.started then { w with shutdown_set := true } else w

end Worker

/-- The liveness test of `get_global_worker`:
`GLOBAL_WORKER is None or not GLOBAL_WORKER.thread.is_alive()`. -/
def needs_new_worker : Option Worker → Bool
  | none => true
  | some w => !w.thread_alive

/-- `Worker(daemon=True, name="GlobalWorkerThread")` followed by
`.start()`, as performed by `get_global_worker`; `fresh_id` is the
identity of the newly constructed object. -/
def new_global_worker (fresh_id : Nat) : Worker :=
  (Worker.init fresh_id true false).start

/-- `get_global_worker`, single-threaded: given the current value of the
module global `GLOBAL_WORKER` (and a fresh identity for the worker it
might construct), return the worker handed to the caller and the new
value of the global. -/
def get_global_worker (g : Option Worker) (fresh_id : Nat) :
    Worker × Option Worker :=
  match g with
  | some w =>
      if w.thread_alive then (w, some w)
      else (new_global_worker fresh_id, some (new_global_worker fresh_id))
  | none => (new_global_worker fresh_id, some (new_global_worker fresh_id))

/-!
Interleaving model of two threads running `get_global_worker`
concurrently.  The function's body has no lock; its smallest faithful
decomposition into atomic regions is (a) evaluating the check
`GLOBAL_WORKER is None or not GLOBAL_WORKER.thread.is_alive()` and
(b) the construct-start-assign sequence.  (Treating all of (b) as one
atomic step is generous to the source — CPython allows switches inside
it too — so any race exhibited here exists in the source a fortiori.)
Thread `i` constructs its worker with identity `i`.
-/

/-- Shared and per-thread state of two threads running
`get_global_worker` concurrently.  `created` records every worker that
was constructed and started; `t1_decided_new`/`t2_decided_new` hold the
outcome of each thread's liveness check; `t1_result`/`t2_result` the
worker each thread returns. -/
structure RaceState where
  global_worker : Option Worker
  created : List Worker
  t1_decided_new : Option Bool
  t2_decided_new : Option Bool
  t1_result : Option Worker
  t2_result : Option Worker
deriving DecidableEq, Repr

/-- Atomic steps of the two racing threads: each thread evaluates the
liveness check, then (if the check said so) constructs, starts and
caches a new worker. -/
inductive RaceStep where
  | check1
  | create1
  | check2
  | create2
deriving DecidableEq, Repr

/-- One atomic step of the interleaving.  A `check` step evaluates
`needs_new_worker` on the current global; when no new worker is needed
the thread's return value is the cached worker.  A `create` step (only
effective after that thread's check decided to create) runs
`GLOBAL_WORKER = Worker(daemon=True, ...); GLOBAL_WORKER.start()` and
returns the new worker. -/
def race_step (s : RaceState) : RaceStep → RaceState
  | .check1 =>
      if needs_new_worker s.global_worker then
        { s with t1_decided_new := some true }
      else
        { s with t1_decided_new := some false, t1_result := s.global_worker }
  | .create1 =>
      if s.t1_decided_new = some true then
        let nw := new_global_worker 1
        { s with global_worker := some nw, created := s.created ++ [nw]
                 t1_decided_new := some false, t1_result := some nw }
      else s
  | .check2 =>
      if needs_new_worker s.global_worker then
        { s with t2_decided_new := some true }
      else
        { s with t2_decided_new := some false, t2_result := s.global_worker }
  | .create2 =>
      if s.t2_decided_new = some true then
        let nw := new_global_worker 2
        { s with global_worker := some nw, created := s.created ++ [nw]
                 t2_decided_new := some false, t2_result := some nw }
      else s

/-- Initial state of the race: first-ever call, `GLOBAL_WORKER = None`,
nothing constructed yet. -/
def race_init : RaceState :=
  { global_worker := none, created := [], t1_decided_new := none
    t2_decided_new := none, t1_result := none, t2_result := none }

/-- Run a schedule (interleaving) of the two threads. -/
def run_race (steps : List RaceStep) : RaceState :=
  steps.foldl race_step race_init

/-- The interleaving in which both threads pass the liveness check before
either has constructed a worker. -/
def race_interleaving : List RaceStep :=
  [RaceStep.check1, RaceStep.check2, RaceStep.create1, RaceStep.create2]

/-- The at-most-one-transition property of one execution of `Call.run`
(continuation included): no `InvalidStateError`, at most one terminal
`set_result`/`set_exception`, and the future ends in exactly one of the
terminal states cancelled, fulfilled or failed. -/
def single_transition {V E : Type} (r : Option (Call.RunOutcome V E)) : Prop :=
  match r with
  | none => False
  | some out =>
      out.terminal_sets ≤ 1 ∧
      (out.future = FutureState.cancelled ∨
       (∃ v, out.future = FutureState.fulfilled v) ∨
       (∃ e, out.future = FutureState.failed e))

/-- A sample call whose function ignores its context and arguments and
returns the plain value 7. -/
def sampleValueCall : Call Nat Nat Nat :=
  Call.new (fun _ _ => FnResult.value 7) 0 3

/-- The sample call with its future cancelled before execution. -/
def sampleCancelledCall : Call Nat Nat Nat :=
  sampleValueCall.cancelFuture

/-- A started run-once worker that has already accepted one submission. -/
def exhaustedWorker : Worker :=
  { (Worker.init 4 false true).start with submitted_count := 1 }

/-- C1: starting from a pending or a cancelled future, every execution
path of `Call.run` — the cancelled early return, the synchronous
completion branch of `_run_sync`, and the asynchronous continuation
`_run_async` — performs at most one terminal `set_result`/`set_exception`
(never raising `InvalidStateError`), and the future ends in exactly one
of the terminal states cancelled, fulfilled or failed. -/
theorem run_single_transition {A V E : Type} (c : Call A V E) (amb : Ctx)
    (loop : Bool)
    (h : c.future = FutureState.pending ∨ c.future = FutureState.cancelled) :
    single_transition (c.run amb loop) := by
  rcases h with h | h
  · rcases hfn : c.fn c.context c.args with v | e | k
    · simp [Call.run, Call.run_sync, h, hfn,
            FutureState.set_running_or_notify_cancel,
            FutureState.set_result, single_transition]
    · simp [Call.run, Call.run_sync, h, hfn,
            FutureState.set_running_or_notify_cancel,
            FutureState.set_exception, single_transition]
    · rcases hk : k c.context with v | e
      · simp [Call.run, Call.run_sync, Call.run_async, h, hfn, hk,
              FutureState.set_running_or_notify_cancel,
              FutureState.set_result, single_transition]
      · simp [Call.run, Call.run_sync, Call.run_async, h, hfn, hk,
              FutureState.set_running_or_notify_cancel,
              FutureState.set_exception, single_transition]
  · simp [Call.run, h, FutureState.set_running_or_notify_cancel,
          single_transition]

/-- Witness for C1 at a concrete call. -/
theorem run_single_transition_witness :
    single_transition (sampleValueCall.run 5 false) :=
  run_single_transition sampleValueCall 5 false (Or.inl rfl)

/-- C2: if the call's future was cancelled before the worker invokes
`run`, then `run` returns immediately: the wrapped function is not
invoked, no result or exception is set, no suspendable handle is
produced, and the future stays cancelled. -/
theorem run_skips_cancelled {A V E : Type} (c : Call A V E) (amb : Ctx)
    (loop : Bool) (h : c.future = FutureState.cancelled) :
    c.run amb loop =
      some { future := FutureState.cancelled, fn_invoked := false
             returned_handle := false, terminal_sets := 0 } := by
  simp [Call.run, h, FutureState.set_running_or_notify_cancel]

/-- Witness for C2 at a concrete cancelled call. -/
theorem run_skips_cancelled_witness :
    sampleCancelledCall.run 5 true =
      some { future := FutureState.cancelled, fn_invoked := false
             returned_handle := false, terminal_sets := 0 } :=
  run_skips_cancelled sampleCancelledCall 5 true rfl

/-- C3: when the wrapped function raises `e` during execution, `run`
returns normally (the exception is captured, never propagated to the
worker thread), the future ends failed with that exact exception object,
and invoking the call and reading its result re-raises exactly `e` to the
waiter. -/
theorem raised_exception_captured {A V E : Type} (fn : Ctx → A → FnResult V E)
    (args : A) (cc amb : Ctx) (loop : Bool) (e : E)
    (h : fn cc args = FnResult.raises e) :
    (Call.new fn args cc).run amb loop =
      some { future := FutureState.failed e, fn_invoked := true
             returned_handle := false, terminal_sets := 1 } ∧
    (Call.new fn args cc).callSelf amb loop =
      some (ResultRead.raises e, false) := by
  constructor <;>
    simp [Call.new, Call.run, Call.run_sync, Call.callSelf, h,
          FutureState.set_running_or_notify_cancel,
          FutureState.set_exception, FutureState.result]

/-- Witness for C3 at a concrete raising call. -/
theorem raised_exception_captured_witness :
    (Call.new (fun (_ : Ctx) (_ : Nat) => (FnResult.raises 42 : FnResult Nat Nat))
        0 3).run 5 false =
      some { future := FutureState.failed 42, fn_invoked := true
             returned_handle := false, terminal_sets := 1 } ∧
    (Call.new (fun (_ : Ctx) (_ : Nat) => (FnResult.raises 42 : FnResult Nat Nat))
        0 3).callSelf 5 false =
      some (ResultRead.raises 42, false) :=
  raised_exception_captured (fun _ _ => FnResult.raises 42) 0 3 5 false 42 rfl

/-- C4: when the wrapped function returns normally with a non-awaitable
value `v`, after `run` the future is fulfilled with exactly `v`, it was
resolved exactly once, invoking the call yields `v`, and — the future
being in its terminal state and `result` a pure read of it — every
subsequent read returns that same value. -/
theorem normal_return_fulfils {A V E : Type} (fn : Ctx → A → FnResult V E)
    (args : A) (cc amb : Ctx) (loop : Bool) (v : V)
    (h : fn cc args = FnResult.value v) :
    (Call.new fn args cc).run amb loop =
      some { future := FutureState.fulfilled v, fn_invoked := true
             returned_handle := false, terminal_sets := 1 } ∧
    (Call.new fn args cc).callSelf amb loop =
      some (ResultRead.value v, false) ∧
    (FutureState.fulfilled v : FutureState V E).result = ResultRead.value v := by
  refine ⟨?_, ?_, rfl⟩ <;>
    simp [Call.new, Call.run, Call.run_sync, Call.callSelf, h,
          FutureState.set_running_or_notify_cancel,
          FutureState.set_result, FutureState.result]

/-- Witness for C4 at a concrete value-returning call. -/
theorem normal_return_fulfils_witness :
    sampleValueCall.run 5 false =
      some { future := FutureState.fulfilled 7, fn_invoked := true
             returned_handle := false, terminal_sets := 1 } ∧
    sampleValueCall.callSelf 5 false = some (ResultRead.value 7, false) ∧
    (FutureState.fulfilled 7 : FutureState Nat Nat).result =
      ResultRead.value 7 :=
  normal_return_fulfils (fun _ _ => FnResult.value 7) 0 3 5 false 7 rfl

/-- C5: `Call.new` snapshots the ambient context at creation time, the
outcome of `run` does not depend on the executing thread's ambient
context at run time, and a context-reading function (one returning the
context it observes) invoked through `run` observes the creation-time
snapshot `cc`, whatever the run-time ambient context `amb` is. -/
theorem context_snapshot_observed :
    (∀ (A V E : Type) (fn : Ctx → A → FnResult V E) (args : A)
       (cc amb amb2 : Ctx) (loop : Bool),
       (Call.new fn args cc).context = cc ∧
       (Call.new fn args cc).run amb loop =
         (Call.new fn args cc).run amb2 loop) ∧
    (∀ (A E : Type) (args : A) (cc amb : Ctx) (loop : Bool),
       (@Call.new A Ctx E (fun ctx _ => FnResult.value ctx) args cc).run
           amb loop =
         some { future := FutureState.fulfilled cc, fn_invoked := true
                returned_handle := false, terminal_sets := 1 }) :=
  ⟨fun _ _ _ _ _ _ _ _ _ => ⟨rfl, rfl⟩, fun _ _ _ _ _ _ => rfl⟩

/-- C6: `Worker.submit` raises `run_once_exhausted` exactly when the
worker is run-once and a call has already been submitted; it raises
`worker_shutdown` exactly when (that first guard not firing) the worker
was previously started and its shutdown signal is set; in every other
case it raises nothing, schedules the call onto the loop and increments
the submitted count by one. -/
theorem submit_raises_exactly (w : Worker) :
    ((w.submit).error = some Worker.SubmitError.run_once_exhausted ↔
       w.submitted_count > 0 ∧ w.run_once = true) ∧
    ((w.submit).error = some Worker.SubmitError.worker_shutdown ↔
       ¬(w.submitted_count > 0 ∧ w.run_once = true) ∧
       w.started = true ∧ w.shutdown_set = true) ∧
    ((w.submit).error = none →
       (w.submit).scheduled_run = true ∧
       (w.submit).worker.submitted_count = w.submitted_count + 1) := by
  by_cases h1 : w.submitted_count > 0 ∧ w.run_once = true
  · simp [Worker.submit, h1]
  · by_cases h2 : w.started = true
    · by_cases h3 : w.shutdown_set = true
      · simp [Worker.submit, h1, h2, h3]
      · simp [Worker.submit, h1, h2, h3]
    · simp [Worker.submit, Worker.start, h1, h2]

/-- Witness for C6: submitting to a fresh worker schedules the call and
increments the count. -/
theorem submit_raises_exactly_witness :
    ((Worker.init 0 false false).submit).scheduled_run = true ∧
    ((Worker.init 0 false false).submit).worker.submitted_count =
      (Worker.init 0 false false).submitted_count + 1 :=
  (submit_raises_exactly (Worker.init 0 false false)).2.2 rfl

/-- C7: while the cached worker's thread is alive, two sequential
`get_global_worker` calls return that identical instance and leave the
cache unchanged; on a first call (`None` cached) or when the cached
worker's thread is dead, a new worker is constructed, started and
cached — and that new worker is a daemon, started, with a live thread. -/
theorem get_global_worker_caching (w : Worker) (i j : Nat) :
    (w.thread_alive = true →
       get_global_worker (some w) i = (w, some w) ∧
       get_global_worker (get_global_worker (some w) i).2 j = (w, some w)) ∧
    (get_global_worker none i =
       (new_global_worker i, some (new_global_worker i))) ∧
    (w.thread_alive = false →
       get_global_worker (some w) i =
         (new_global_worker i, some (new_global_worker i))) ∧
    ((new_global_worker i).daemon = true ∧
     (new_global_worker i).started = true ∧
     (new_global_worker i).thread_alive = true) := by
  refine ⟨fun h => ⟨?_, ?_⟩, rfl, fun h => ?_, rfl, rfl, rfl⟩ <;>
    simp [get_global_worker, h]

/-- Witness for C7: a live cached worker is returned identically twice;
a dead cached worker is replaced by a freshly started one. -/
theorem get_global_worker_caching_witness :
    (get_global_worker (some (new_global_worker 5)) 1 =
       (new_global_worker 5, some (new_global_worker 5)) ∧
     get_global_worker
         (get_global_worker (some (new_global_worker 5)) 1).2 2 =
       (new_global_worker 5, some (new_global_worker 5))) ∧
    get_global_worker (some { new_global_worker 5 with thread_alive := false })
        3 =
      (new_global_worker 3, some (new_global_worker 3)) :=
  ⟨(get_global_worker_caching (new_global_worker 5) 1 2).1 rfl,
   (get_global_worker_caching
       { new_global_worker 5 with thread_alive := false } 3 0).2.2.1 rfl⟩

/-- C8: the interleaving in which both threads evaluate the liveness
check before either assigns shows `get_global_worker` without a guard:
from a `None` cache, both threads construct and start a worker, two live
daemon workers exist, the two callers return distinct instances, and the
cache keeps only the later one. -/
theorem global_worker_race_two_live_workers :
    (run_race race_interleaving).created =
      [new_global_worker 1, new_global_worker 2] ∧
    (run_race race_interleaving).t1_result = some (new_global_worker 1) ∧
    (run_race race_interleaving).t2_result = some (new_global_worker 2) ∧
    new_global_worker 1 ≠ new_global_worker 2 ∧
    (new_global_worker 1).thread_alive = true ∧
    (new_global_worker 2).thread_alive = true ∧
    (run_race race_interleaving).global_worker = some (new_global_worker 2) := by
  refine ⟨rfl, rfl, rfl, ?_, rfl, rfl, rfl⟩
  decide

/-- C9: `Worker.shutdown` is a no-op on a never-started worker, it is
idempotent, and on a started worker it leaves the shutdown signal set
(the worker still marked started) — a second call changes nothing and
raises nothing (`shutdown` is a total function). -/
theorem shutdown_idempotent (w : Worker) :
    (w.started = false → w.shutdown = w) ∧
    w.shutdown.shutdown = w.shutdown ∧
    (w.started = true →
       (w.shutdown).shutdown_set = true ∧ (w.shutdown).started = true) := by
  by_cases h : w.started = true <;> simp [Worker.shutdown, h]

/-- Witness for C9: shutting a started worker down sets the signal, and
shutting down a never-started worker changes nothing. -/
theorem shutdown_idempotent_witness :
    ((new_global_worker 0).shutdown.shutdown_set = true ∧
     (new_global_worker 0).shutdown.started = true) ∧
    (Worker.init 1 false false).shutdown = Worker.init 1 false false :=
  ⟨(shutdown_idempotent (new_global_worker 0)).2.2 rfl,
   (shutdown_idempotent (Worker.init 1 false false)).1 rfl⟩

/-- C10: when `Worker.submit` raises (either error), the worker state is
returned unchanged — in particular the submitted count is not
incremented — the call is not scheduled onto the loop, and no shutdown
continuation is attached to the call's future. -/
theorem submit_error_leaves_state (w : Worker) (e : Worker.SubmitError)
    (h : (w.submit).error = some e) :
    (w.submit).worker = w ∧ (w.submit).scheduled_run = false ∧
    (w.submit).added_shutdown_callback = false := by
  by_cases h1 : w.submitted_count > 0 ∧ w.run_once = true
  · simp [Worker.submit, h1]
  · by_cases h2 : w.started = true
    · by_cases h3 : w.shutdown_set = true
      · simp [Worker.submit, h1, h2, h3]
      · exact absurd h (by simp [Worker.submit, h1, h2, h3])
    · exact absurd h (by simp [Worker.submit, Worker.start, h1, h2])

/-- Witness for C10 at a concrete exhausted run-once worker. -/
theorem submit_error_leaves_state_witness :
    (exhaustedWorker.submit).worker = exhaustedWorker ∧
    (exhaustedWorker.submit).scheduled_run = false ∧
    (exhaustedWorker.submit).added_shutdown_callback = false :=
  submit_error_leaves_state exhaustedWorker
    Worker.SubmitError.run_once_exhausted rfl

end PrefectWorkers
